import Mathlib

/-!
Verification development for the simulation core of `snowball-night-run`
(`src/app/index.tsx`).  The fixed-timestep physics, collision resolution,
procedural tile generation, collectible pickup and run lifecycle are embedded
as executable Lean definitions over `ℚ`; the screen dimensions
(`SCREEN_WIDTH`, `SCREEN_HEIGHT`, obtained from the device at runtime) are
passed as parameters `W` and `H`.  The random draws performed by the source
(`Math.random()` indexing into `TILE_WIDTHS` / `GAP_SIZES`, and the
probability-0.3 collectible spawn) are modelled as explicit choice arguments
carrying membership in the fixed discrete sets.
-/

namespace Snowball

/-- `GRAVITY = 0.6` -/
def GRAVITY : ℚ := 3/5

/-- `JUMP_FORCE = -14` -/
def JUMP_FORCE : ℚ := -14

/-- `DOUBLE_JUMP_FORCE = -11` -/
def DOUBLE_JUMP_FORCE : ℚ := -11

/-- `TERMINAL_VELOCITY = 20` -/
def TERMINAL_VELOCITY : ℚ := 20

/-- `INITIAL_SPEED = 3.5` -/
def INITIAL_SPEED : ℚ := 7/2

/-- `SPEED_INCREMENT = 0.0008` -/
def SPEED_INCREMENT : ℚ := 1/1250

/-- `MAX_SPEED = 9` -/
def MAX_SPEED : ℚ := 9

/-- `SPAWN_AHEAD_DISTANCE = SCREEN_WIDTH * 1.5`; `W` is the screen width. -/
def SPAWN_AHEAD_DISTANCE (W : ℚ) : ℚ := W * (3/2)

/-- `SNOWBALL_SIZE = 40` -/
def SNOWBALL_SIZE : ℚ := 40

/-- `TILE_Y = SCREEN_HEIGHT - 200`; `H` is the screen height. -/
def TILE_Y (H : ℚ) : ℚ := H - 200

/-- `TILE_WIDTHS = [120, 180, 250, 400]` -/
def TILE_WIDTHS : List ℚ := [120, 180, 250, 400]

/-- `GAP_SIZES = [100, 150, 200]` -/
def GAP_SIZES : List ℚ := [100, 150, 200]

/-- `COYOTE_TIME = 8` (frames) -/
def COYOTE_TIME : Nat := 8

/-- `JUMP_BUFFER_TIME = 6` (frames) -/
def JUMP_BUFFER_TIME : Nat := 6

/-- `LANDING_TOLERANCE = 30` -/
def LANDING_TOLERANCE : ℚ := 30

/-- The `type` tag of `TileData` (`'short' | 'medium' | 'long'`); cosmetic. -/
inductive TileType where
  | short
  | medium
  | long
deriving DecidableEq, Repr

/-- `TileData`: id, world-space center `x`, `width`, cosmetic tag. -/
structure TileData where
  id : Nat
  x : ℚ
  width : ℚ
  type : TileType
deriving DecidableEq, Repr

/-- `CollectibleData`: id, world-space `x`, owning tile id, collected flag. -/
structure CollectibleData where
  id : Nat
  x : ℚ
  tileId : Nat
  collected : Bool
deriving DecidableEq, Repr

/-- The mutable simulation state held in `stateRef` (the fields that the
physics acts on; the clock bookkeeping `lastTime`/`accumulator`/`frameCounter`
is handled by the frame-step driver below). -/
structure ActorState where
  snowballY : ℚ
  velocity : ℚ
  cameraX : ℚ
  speed : ℚ
  isOnGround : Bool
  hasDoubleJump : Bool
  score : ℚ
  coyoteTimer : Nat
  jumpBufferTimer : Nat
  lastGroundY : ℚ
deriving DecidableEq, Repr

/-- `GameState` lifecycle: `'start' | 'playing' | 'gameOver'`. -/
inductive Phase where
  | start
  | playing
  | gameOver
deriving DecidableEq, Repr

/-- The whole simulation state for one run: `stateRef` plus `gameDataRef`
(tiles, collectibles) plus the id counters and the React lifecycle phase. -/
structure GameState where
  actor : ActorState
  tiles : List TileData
  collectibles : List CollectibleData
  tileIdCounter : Nat
  collectibleIdCounter : Nat
  phase : Phase
deriving DecidableEq, Repr

/-- One random draw of a tile width and a gap, as performed by
`TILE_WIDTHS[Math.floor(Math.random() * TILE_WIDTHS.length)]` and
`GAP_SIZES[Math.floor(Math.random() * GAP_SIZES.length)]`: an element of each
fixed set. -/
structure SizeChoice where
  width : ℚ
  gap : ℚ
  widthMem : width ∈ TILE_WIDTHS
  gapMem : gap ∈ GAP_SIZES

/-- The random draws consumed by one `updatePhysics` call: the tile size draw
and the `Math.random() < 0.3` collectible-spawn coin. -/
structure Choice where
  size : SizeChoice
  spawnColl : Bool

/-- Velocity after integration: `velocity += GRAVITY;
velocity = Math.min(velocity, TERMINAL_VELOCITY)`. -/
def postVel (a : ActorState) : ℚ := min (a.velocity + GRAVITY) TERMINAL_VELOCITY

/-- Speed after the ramp: `speed = Math.min(speed + SPEED_INCREMENT, MAX_SPEED)`. -/
def postSpeed (a : ActorState) : ℚ := min (a.speed + SPEED_INCREMENT) MAX_SPEED

/-- Camera after the scroll advance: `cameraX += speed` (with the new speed). -/
def postCam (a : ActorState) : ℚ := a.cameraX + postSpeed a

/-- The actor's bottom edge after integration:
`snowballBottom = state.snowballY + SNOWBALL_SIZE`. -/
def postBottom (a : ActorState) : ℚ := a.snowballY + postVel a + SNOWBALL_SIZE

/-- Lines 423-432 of `updatePhysics`: integrate velocity and position, ramp
the speed, advance the camera, add the passive distance score, and decay the
jump-buffer and coyote timers (each decrements toward zero, never below). -/
def integrateStep (a : ActorState) : ActorState :=
  { a with
    velocity := postVel a
    snowballY := a.snowballY + postVel a
    speed := postSpeed a
    cameraX := postCam a
    score := a.score + postSpeed a / 100
    jumpBufferTimer := a.jumpBufferTimer - 1
    coyoteTimer := a.coyoteTimer - 1 }

/-- `horizontalOverlap = snowballRight > tileLeft && snowballLeft < tileRight`
where the snowball spans `cam ± SNOWBALL_SIZE/2` at world-X `cam`. -/
def overlaps (cam : ℚ) (t : TileData) : Prop :=
  cam + SNOWBALL_SIZE / 2 > t.x - t.width / 2 ∧
  cam - SNOWBALL_SIZE / 2 < t.x + t.width / 2

instance (cam : ℚ) (t : TileData) : Decidable (overlaps cam t) :=
  inferInstanceAs (Decidable (_ ∧ _))

/-- The landing block (lines 453-468): snap the bottom edge onto the surface,
zero the velocity, ground the actor, clear the double jump, refresh the
coyote timer, record the grounded Y; then, if a buffered jump is pending,
immediately re-trigger the primary jump and clear the buffer. -/
def landApply (H : ℚ) (a : ActorState) : ActorState :=
  let aL := { a with
    snowballY := TILE_Y H - SNOWBALL_SIZE
    velocity := 0
    isOnGround := true
    hasDoubleJump := false
    coyoteTimer := COYOTE_TIME
    lastGroundY := TILE_Y H - SNOWBALL_SIZE }
  if 0 < aL.jumpBufferTimer then
    { aL with
      velocity := JUMP_FORCE
      isOnGround := false
      hasDoubleJump := true
      jumpBufferTimer := 0 }
  else aL

/-- The collision loop (lines 442-474): walk the tiles; on the first
horizontally overlapping tile whose surface distance is within the landing
tolerance while velocity is non-negative, land (and `break`); an overlapping
tile near the last grounded Y merely marks `onTile`.  Returns the updated
actor and the `onTile` / `shouldLand` flags.  `cam` and `ybot` are the
world-X and bottom edge computed before the loop. -/
def collide (cam ybot H : ℚ) (a : ActorState) :
    List TileData → Bool → ActorState × Bool × Bool
  | [], onTile => (a, onTile, false)
  | t :: rest, onTile =>
    if overlaps cam t then
      if 0 ≤ ybot - TILE_Y H ∧ ybot - TILE_Y H ≤ LANDING_TOLERANCE ∧ 0 ≤ a.velocity then
        (landApply H a, true, true)
      else if |a.snowballY - a.lastGroundY| < 5 then
        collide cam ybot H a rest true
      else
        collide cam ybot H a rest onTile
    else
      collide cam ybot H a rest onTile

/-- Retirement filter predicate (line 487): keep tiles whose right edge is
still ahead of `cameraX - SCREEN_WIDTH`. -/
def keep (bound : ℚ) (t : TileData) : Bool :=
  decide (bound < t.x + t.width / 2)

/-- Spawning logic (lines 487-512): retire tiles behind the camera, then if
the frontier (the last active tile) is nearer than `SPAWN_AHEAD_DISTANCE`,
append one new tile at `lastRight + gap + width/2` (and, on the spawn coin,
one collectible centered on it).  Returns the new tiles, collectibles and id
counters. -/
def spawnStep (W cam : ℚ) (c : Choice) (tiles : List TileData)
    (colls : List CollectibleData) (tCtr cCtr : Nat) :
    List TileData × List CollectibleData × Nat × Nat :=
  let activeTiles := tiles.filter (keep (cam - W))
  match activeTiles.getLast? with
  | none => (activeTiles, colls, tCtr, cCtr)
  | some lt =>
    if lt.x + lt.width / 2 < cam + SPAWN_AHEAD_DISTANCE W then
      let newCenter := lt.x + lt.width / 2 + c.size.gap + c.size.width / 2
      let newTile : TileData := ⟨tCtr, newCenter, c.size.width, TileType.medium⟩
      if c.spawnColl then
        (activeTiles ++ [newTile], colls ++ [⟨cCtr, newCenter, tCtr, false⟩],
         tCtr + 1, cCtr + 1)
      else
        (activeTiles ++ [newTile], colls, tCtr + 1, cCtr)
    else (activeTiles, colls, tCtr, cCtr)

/-- Collectible pickup loop (lines 516-524): an uncollected collectible whose
horizontal distance to the camera is below 40 and whose fixed vertical
placement `TILE_Y - 70` is within 50 of the snowball's Y is marked collected
and is worth a 10-point bonus.  Returns the updated list and the total bonus
added to the score. -/
def pickup (cam y H : ℚ) : List CollectibleData → List CollectibleData × ℚ
  | [] => ([], 0)
  | cl :: rest =>
    let r := pickup cam y H rest
    if cl.collected = false ∧ |cl.x - cam| < 40 ∧ |y - (TILE_Y H - 70)| < 50 then
      ({ cl with collected := true } :: r.1, r.2 + 10)
    else (cl :: r.1, r.2)

/-- The effect of `pickup` on a single collectible. -/
def pickupOne (cam y H : ℚ) (cl : CollectibleData) : CollectibleData :=
  if cl.collected = false ∧ |cl.x - cam| < 40 ∧ |y - (TILE_Y H - 70)| < 50 then
    { cl with collected := true }
  else cl

/-- Whether a collectible qualifies for pickup this step. -/
def qualifies (cam y H : ℚ) (cl : CollectibleData) : Bool :=
  decide (cl.collected = false ∧ |cl.x - cam| < 40 ∧ |y - (TILE_Y H - 70)| < 50)

/-- One fixed physics step (`updatePhysics`, lines 419-547): integration and
timers, the collision loop, the grounded-to-airborne transition, the
fall-death check (which ends the run and skips all remaining work), tile
spawning/retirement, and collectible pickup.  Particles are cosmetic and not
modelled.  The function itself never reads the lifecycle phase - the React
effect stops scheduling frames once the phase leaves `playing`, but steps
already queued in the current frame still run (see `frameSteps`). -/
def updatePhysics (W H : ℚ) (c : Choice) (g : GameState) : GameState :=
  let a1 := integrateStep g.actor
  let r := collide a1.cameraX (a1.snowballY + SNOWBALL_SIZE) H a1 g.tiles false
  let a2 := r.1
  let onTile := r.2.1
  let shouldLand := r.2.2
  let a3 :=
    if shouldLand = false ∧ a2.isOnGround = true ∧ onTile = false then
      { a2 with isOnGround := false, coyoteTimer := COYOTE_TIME }
    else a2
  if H + 100 < a3.snowballY then
    { g with actor := a3, phase := Phase.gameOver }
  else
    let s := spawnStep W a1.cameraX c g.tiles g.collectibles
               g.tileIdCounter g.collectibleIdCounter
    let colls1 := s.2.1.filter (fun cl => decide (a1.cameraX - W < cl.x))
    let p := pickup a1.cameraX a3.snowballY H colls1
    { g with
      actor := { a3 with score := a3.score + p.2 }
      tiles := s.1
      collectibles := p.1
      tileIdCounter := s.2.2.1
      collectibleIdCounter := s.2.2.2 }

/-- Whether the current step's collision loop resolves a landing. -/
def stepLands (H : ℚ) (g : GameState) : Bool :=
  (collide (integrateStep g.actor).cameraX
    ((integrateStep g.actor).snowballY + SNOWBALL_SIZE) H
    (integrateStep g.actor) g.tiles false).2.2

/-- The jump command (`handleTap`, lines 314-347, in the `playing` phase).
Takes the wall-clock tap time and the recorded last tap time; returns the
new actor state and the new recorded tap time (`lastTapTimeRef`). -/
def handleTap (now lastTap : ℚ) (a : ActorState) : ActorState × ℚ :=
  if a.isOnGround = true ∨ 0 < a.coyoteTimer then
    ({ a with
        velocity := JUMP_FORCE
        isOnGround := false
        coyoteTimer := 0
        hasDoubleJump := true }, now)
  else if a.isOnGround = false ∧ a.hasDoubleJump = true ∧ now - lastTap < 300 then
    ({ a with velocity := DOUBLE_JUMP_FORCE, hasDoubleJump := false }, 0)
  else if a.isOnGround = false then
    ({ a with jumpBufferTimer := JUMP_BUFFER_TIME }, now)
  else (a, lastTap)

/-- The actor state set up by `initGame` (lines 204-218): resting on the
start platform with zeroed velocity, score, camera and timers. -/
def initActor (H : ℚ) : ActorState :=
  { snowballY := TILE_Y H - SNOWBALL_SIZE
    velocity := 0
    cameraX := 0
    speed := INITIAL_SPEED
    isOnGround := true
    hasDoubleJump := false
    score := 0
    coyoteTimer := 0
    jumpBufferTimer := 0
    lastGroundY := TILE_Y H - SNOWBALL_SIZE }

/-- The tile-generation loop of `initGame` (lines 235-252): starting from the
previous center/width, each drawn (width, gap) pair places a tile at
`prevCenter + prevWidth/2 + gap + width/2`. -/
def genTiles : List SizeChoice → ℚ → ℚ → Nat → List TileData
  | [], _, _, _ => []
  | sc :: rest, cc, cw, ctr =>
    let nc := cc + cw / 2 + sc.gap + sc.width / 2
    ⟨ctr, nc, sc.width, TileType.medium⟩ :: genTiles rest nc sc.width (ctr + 1)

/-- The initial tile layout (lines 221-252): one long safe platform of width
600 centered at world origin, followed by the tiles generated from the drawn
sizes (the source draws exactly 5). -/
def initTiles (cs : List SizeChoice) : List TileData :=
  ⟨0, 0, 600, TileType.long⟩ :: genTiles cs 0 600 1

/-- `initGame` followed by `setGameState('playing')` (`handleStart`): fresh
actor, initial tiles, no collectibles, id counters advanced past the initial
tiles. -/
def initGame (H : ℚ) (cs : List SizeChoice) : GameState :=
  { actor := initActor H
    tiles := initTiles cs
    collectibles := []
    tileIdCounter := (initTiles cs).length
    collectibleIdCounter := 0
    phase := Phase.playing }

/-- The fixed-timestep catch-up loop inside one `gameLoop` frame (lines
561-564): `while (accumulator >= TIME_STEP) updatePhysics()`.  One `Choice`
per executed step.  The loop does not consult the lifecycle phase. -/
def frameSteps (W H : ℚ) : List Choice → GameState → GameState
  | [], g => g
  | c :: cs, g => frameSteps W H cs (updatePhysics W H c g)

/-- One animation frame as scheduled by the React effect (lines 414-583):
frames are only scheduled while `gameState === 'playing'`, and a frame that
does run executes all queued fixed steps. -/
def runFrame (W H : ℚ) (cs : List Choice) (g : GameState) : GameState :=
  if g.phase = Phase.playing then frameSteps W H cs g else g

/-- Chain relation for consecutively generated tiles: the later tile's center
is the earlier tile's right edge plus one of the allowed gaps plus half the
later tile's width. -/
def TileRel (a b : TileData) : Prop :=
  ∃ gp ∈ GAP_SIZES, b.x = a.x + a.width / 2 + gp + b.width / 2

instance (a b : TileData) : Decidable (TileRel a b) :=
  inferInstanceAs (Decidable (∃ gp ∈ GAP_SIZES, _))

/-- The generation invariant: consecutive tiles are chained by `TileRel` and
every tile has positive width. -/
def GoodTiles (l : List TileData) : Prop :=
  l.Chain' TileRel ∧ ∀ t ∈ l, 0 < t.width

instance (l : List TileData) : Decidable (GoodTiles l) :=
  inferInstanceAs (Decidable (_ ∧ _))

/-! ### Concrete states for evaluating the definitions
(`W = 400`, `H = 800`, so the platform surface `TILE_Y` is at 600 and the
resting snowball top is at 560). -/

/-- A fixed size draw: width 120, gap 100. -/
def scA : SizeChoice :=
  ⟨120, 100, by norm_num [TILE_WIDTHS], by norm_num [GAP_SIZES]⟩

/-- A fixed per-step draw: size `scA`, no collectible spawn. -/
def chA : Choice := ⟨scA, false⟩

/-- The initial long safe platform. -/
def tileStart : TileData := ⟨0, 0, 600, TileType.long⟩

/-- An actor falling onto the start platform: bottom edge at 610, 10 below
the surface, within the landing tolerance. -/
def aLand : ActorState :=
  { snowballY := 570
    velocity := 2
    cameraX := 0
    speed := INITIAL_SPEED
    isOnGround := false
    hasDoubleJump := true
    score := 0
    coyoteTimer := 0
    jumpBufferTimer := 0
    lastGroundY := 560 }

/-- A run about to resolve a plain landing. -/
def gLand : GameState :=
  { actor := aLand
    tiles := [tileStart]
    collectibles := []
    tileIdCounter := 1
    collectibleIdCounter := 0
    phase := Phase.playing }

/-- The same landing, but with a buffered jump pending. -/
def gLandBuf : GameState :=
  { gLand with actor := { aLand with jumpBufferTimer := 3 } }

/-- A run with the actor resting on the start platform. -/
def gRest : GameState :=
  { actor := initActor 800
    tiles := [tileStart]
    collectibles := []
    tileIdCounter := 1
    collectibleIdCounter := 0
    phase := Phase.playing }

/-- A falling actor one step above the death line, over a gap (no tiles). -/
def gFall : GameState :=
  { actor :=
      { snowballY := 895
        velocity := 97/5
        cameraX := 0
        speed := INITIAL_SPEED
        isOnGround := false
        hasDoubleJump := false
        score := 0
        coyoteTimer := 0
        jumpBufferTimer := 0
        lastGroundY := 560 }
    tiles := []
    collectibles := []
    tileIdCounter := 0
    collectibleIdCounter := 0
    phase := Phase.playing }

/-- A run already past the death line with the phase ended. -/
def gDead : GameState :=
  { gFall with
    actor := { gFall.actor with snowballY := 950, velocity := 20 }
    phase := Phase.gameOver }

/-- A run whose active tile set has emptied out. -/
def gEmpty : GameState :=
  { actor :=
      { snowballY := 300
        velocity := 5
        cameraX := 0
        speed := INITIAL_SPEED
        isOnGround := false
        hasDoubleJump := false
        score := 0
        coyoteTimer := 0
        jumpBufferTimer := 0
        lastGroundY := 560 }
    tiles := []
    collectibles := [⟨0, 5, 0, false⟩]
    tileIdCounter := 4
    collectibleIdCounter := 1
    phase := Phase.playing }

/-- An uncollected collectible near the camera. -/
def clFresh : CollectibleData := ⟨0, 3, 0, false⟩

/-- An already collected collectible. -/
def clDone : CollectibleData := ⟨1, 3, 0, true⟩

/-- First tap of a concrete tap sequence: ground jump at t=1000. -/
def tap1 : ActorState × ℚ := handleTap 1000 0 (initActor 800)

/-- Second tap at t=1100, 100ms after the first: double jump. -/
def tap2 : ActorState × ℚ := handleTap 1100 tap1.2 tap1.1

/-- Third tap at t=1200, after the double jump, before any landing. -/
def tap3 : ActorState × ℚ := handleTap 1200 tap2.2 tap2.1

/-! ### Basic facts about the fixed discrete sets -/

lemma gap_pos : ∀ gp ∈ GAP_SIZES, (0 : ℚ) < gp := by
  intro gp hgp
  simp only [GAP_SIZES, List.mem_cons, List.not_mem_nil, or_false] at hgp
  rcases hgp with rfl | rfl | rfl <;> norm_num

lemma width_pos : ∀ w ∈ TILE_WIDTHS, (0 : ℚ) < w := by
  intro w hw
  simp only [TILE_WIDTHS, List.mem_cons, List.not_mem_nil, or_false] at hw
  rcases hw with rfl | rfl | rfl | rfl <;> norm_num

/-! ### Structure of `landApply` and the collision loop -/

lemma landApply_fields (H : ℚ) (a : ActorState) :
    (landApply H a).score = a.score ∧ (landApply H a).speed = a.speed ∧
    (landApply H a).cameraX = a.cameraX ∧
    (landApply H a).snowballY = TILE_Y H - SNOWBALL_SIZE ∧
    (landApply H a).lastGroundY = TILE_Y H - SNOWBALL_SIZE := by
  simp only [landApply]
  split <;> simp

/-- If the tile-independent landing condition holds and some tile overlaps,
the collision loop lands (on the first overlapping tile). -/
lemma collide_land (cam ybot H : ℚ) (a : ActorState)
    (h0 : 0 ≤ ybot - TILE_Y H) (h1 : ybot - TILE_Y H ≤ LANDING_TOLERANCE)
    (hv : 0 ≤ a.velocity) :
    ∀ (l : List TileData) (ot : Bool), (∃ t ∈ l, overlaps cam t) →
      collide cam ybot H a l ot = (landApply H a, true, true) := by
  intro l
  induction l with
  | nil =>
    rintro ot ⟨t, ht, -⟩
    cases ht
  | cons t rest ih =>
    rintro ot ⟨u, hu, huo⟩
    have hland : 0 ≤ ybot - TILE_Y H ∧ ybot - TILE_Y H ≤ LANDING_TOLERANCE ∧
        0 ≤ a.velocity := ⟨h0, h1, hv⟩
    by_cases hov : overlaps cam t
    · simp only [collide, if_pos hov, if_pos hland]
    · rcases List.mem_cons.mp hu with rfl | hu'
      · exact absurd huo hov
      · simp only [collide, if_neg hov]
        exact ih ot ⟨u, hu', huo⟩

/-- The collision loop either leaves the actor untouched without landing, or
lands it. -/
lemma collide_eq_or (cam ybot H : ℚ) (a : ActorState) :
    ∀ (l : List TileData) (ot : Bool),
      (∃ b, collide cam ybot H a l ot = (a, b, false)) ∨
      collide cam ybot H a l ot = (landApply H a, true, true) := by
  intro l
  induction l with
  | nil => intro ot; exact Or.inl ⟨ot, rfl⟩
  | cons t rest ih =>
    intro ot
    by_cases hov : overlaps cam t
    · by_cases hland : 0 ≤ ybot - TILE_Y H ∧ ybot - TILE_Y H ≤ LANDING_TOLERANCE ∧
          0 ≤ a.velocity
      · right
        simp only [collide, if_pos hov, if_pos hland]
      · by_cases hnear : |a.snowballY - a.lastGroundY| < 5
        · simp only [collide, if_pos hov, if_neg hland, if_pos hnear]
          exact ih true
        · simp only [collide, if_pos hov, if_neg hland, if_neg hnear]
          exact ih ot
    · simp only [collide, if_neg hov]
      exact ih ot

/-- If the landing condition fails this step, the collision loop cannot land. -/
lemma collide_of_not_cond (cam ybot H : ℚ) (a : ActorState)
    (h : ¬(0 ≤ ybot - TILE_Y H ∧ ybot - TILE_Y H ≤ LANDING_TOLERANCE ∧ 0 ≤ a.velocity)) :
    ∀ (l : List TileData) (ot : Bool),
      ∃ b, collide cam ybot H a l ot = (a, b, false) := by
  intro l
  induction l with
  | nil => intro ot; exact ⟨ot, rfl⟩
  | cons t rest ih =>
    intro ot
    by_cases hov : overlaps cam t
    · by_cases hnear : |a.snowballY - a.lastGroundY| < 5
      · simp only [collide, if_pos hov, if_neg h, if_pos hnear]
        exact ih true
      · simp only [collide, if_pos hov, if_neg h, if_neg hnear]
        exact ih ot
    · simp only [collide, if_neg hov]
      exact ih ot

/-- When the loop reports no landing, the actor came through untouched. -/
lemma collide_fst_of_no_land (cam ybot H : ℚ) (a : ActorState)
    (l : List TileData) (ot : Bool)
    (h : (collide cam ybot H a l ot).2.2 = false) :
    (collide cam ybot H a l ot).1 = a := by
  rcases collide_eq_or cam ybot H a l ot with ⟨b, hb⟩ | hb
  · rw [hb]
  · rw [hb] at h
    cases h

/-! ### Structure of the pickup loop -/

lemma pickupOne_fields (cam y H : ℚ) (cl : CollectibleData) :
    (pickupOne cam y H cl).id = cl.id ∧ (pickupOne cam y H cl).x = cl.x ∧
    (pickupOne cam y H cl).tileId = cl.tileId := by
  unfold pickupOne
  split <;> simp

/-- The pickup loop marks exactly the qualifying collectibles and adds a
10-point bonus for each. -/
lemma pickup_eq_map (cam y H : ℚ) : ∀ l : List CollectibleData,
    pickup cam y H l =
      (l.map (pickupOne cam y H), 10 * (l.countP (qualifies cam y H) : ℚ)) := by
  intro l
  induction l with
  | nil => simp [pickup]
  | cons cl rest ih =>
    by_cases hq : cl.collected = false ∧ |cl.x - cam| < 40 ∧ |y - (TILE_Y H - 70)| < 50
    · have hqb : qualifies cam y H cl = true := by
        simpa [qualifies] using hq
      simp only [pickup, ih, if_pos hq, List.map_cons, List.countP_cons, hqb,
        if_true, pickupOne, Prod.mk.injEq]
      refine ⟨trivial, ?_⟩
      push_cast
      ring
    · have hqb : qualifies cam y H cl = false := by
        simpa [qualifies] using hq
      simp only [pickup, ih, if_neg hq, List.map_cons, List.countP_cons, hqb,
        if_false, pickupOne, Prod.mk.injEq]
      refine ⟨trivial, ?_⟩
      push_cast
      ring

lemma pickup_bonus_nonneg (cam y H : ℚ) (l : List CollectibleData) :
    0 ≤ (pickup cam y H l).2 := by
  rw [pickup_eq_map]
  positivity

/-! ### Structure of one `updatePhysics` step -/

lemma landApply_no_buffer (H : ℚ) (a : ActorState) (h : a.jumpBufferTimer = 0) :
    landApply H a =
      { a with
        snowballY := TILE_Y H - SNOWBALL_SIZE
        velocity := 0
        isOnGround := true
        hasDoubleJump := false
        coyoteTimer := COYOTE_TIME
        lastGroundY := TILE_Y H - SNOWBALL_SIZE } := by
  simp only [landApply]
  rw [if_neg]
  simp [h]

lemma landApply_buffer (H : ℚ) (a : ActorState) (h : 0 < a.jumpBufferTimer) :
    landApply H a =
      { a with
        snowballY := TILE_Y H - SNOWBALL_SIZE
        velocity := JUMP_FORCE
        isOnGround := false
        hasDoubleJump := true
        coyoteTimer := COYOTE_TIME
        jumpBufferTimer := 0
        lastGroundY := TILE_Y H - SNOWBALL_SIZE } := by
  simp only [landApply]
  rw [if_pos]
  exact h

lemma not_death_of_landed (H : ℚ) : ¬ (H + 100 < TILE_Y H - SNOWBALL_SIZE) := by
  simp only [TILE_Y, SNOWBALL_SIZE]
  intro h
  linarith

/-- When the landing condition holds and some tile is under the actor, the
step's resulting actor is the landed actor, plus any collectible bonus on the
score. -/
lemma updatePhysics_land (W H : ℚ) (c : Choice) (g : GameState)
    (h0 : 0 ≤ postBottom g.actor - TILE_Y H)
    (h1 : postBottom g.actor - TILE_Y H ≤ LANDING_TOLERANCE)
    (hv : 0 ≤ postVel g.actor)
    (hov : ∃ t ∈ g.tiles, overlaps (postCam g.actor) t) :
    ∃ q : ℚ, 0 ≤ q ∧
      (updatePhysics W H c g).actor =
        { landApply H (integrateStep g.actor) with
          score := (landApply H (integrateStep g.actor)).score + q } := by
  have hc : collide (integrateStep g.actor).cameraX
      ((integrateStep g.actor).snowballY + SNOWBALL_SIZE) H
      (integrateStep g.actor) g.tiles false
      = (landApply H (integrateStep g.actor), true, true) :=
    collide_land _ _ _ _ h0 h1 hv _ _ hov
  have hy : (landApply H (integrateStep g.actor)).snowballY
      = TILE_Y H - SNOWBALL_SIZE := (landApply_fields H _).2.2.2.1
  simp only [updatePhysics, hc]
  norm_num [hy, not_death_of_landed H]
  exact pickup_bonus_nonneg _ _ _ _

/-- When the landing condition fails, the step leaves the actor's motion at
the integrated values; if moreover it is past the death line, the run ends
and everything but the actor is untouched. -/
lemma updatePhysics_death (W H : ℚ) (c : Choice) (g : GameState)
    (hnl : ¬(0 ≤ postBottom g.actor - TILE_Y H ∧
        postBottom g.actor - TILE_Y H ≤ LANDING_TOLERANCE ∧ 0 ≤ postVel g.actor))
    (hy : H + 100 < g.actor.snowballY + postVel g.actor) :
    ∃ a3 : ActorState,
      updatePhysics W H c g = { g with actor := a3, phase := Phase.gameOver } ∧
      a3.snowballY = g.actor.snowballY + postVel g.actor ∧
      a3.velocity = postVel g.actor ∧
      a3.score = g.actor.score + postSpeed g.actor / 100 ∧
      a3.speed = postSpeed g.actor := by
  obtain ⟨b, hc⟩ := collide_of_not_cond (integrateStep g.actor).cameraX
      ((integrateStep g.actor).snowballY + SNOWBALL_SIZE) H
      (integrateStep g.actor) hnl g.tiles false
  simp only [updatePhysics, hc]
  split
  · split
    · exact ⟨_, rfl, rfl, rfl, rfl, rfl⟩
    · rename_i hdn
      exact absurd hy hdn
  · split
    · exact ⟨_, rfl, rfl, rfl, rfl, rfl⟩
    · rename_i hdn
      exact absurd hy hdn

/-- Skeleton of an arbitrary step: the intermediate actor `a3` is the
integrated actor, the integrated actor gone airborne, or the landed actor;
the step either ends the run keeping tiles/collectibles/counters, or keeps
the phase and adds a non-negative pickup bonus to the score. -/
lemma updatePhysics_shape (W H : ℚ) (c : Choice) (g : GameState) :
    ∃ (a3 : ActorState) (q : ℚ),
      0 ≤ q ∧
      (a3 = integrateStep g.actor ∨
        a3 = { integrateStep g.actor with
                isOnGround := false, coyoteTimer := COYOTE_TIME } ∨
        a3 = landApply H (integrateStep g.actor)) ∧
      (updatePhysics W H c g = { g with actor := a3, phase := Phase.gameOver } ∨
        ∃ tl cls tc cc,
          updatePhysics W H c g =
            { g with
              actor := { a3 with score := a3.score + q }
              tiles := tl
              collectibles := cls
              tileIdCounter := tc
              collectibleIdCounter := cc }) := by
  rcases collide_eq_or (integrateStep g.actor).cameraX
      ((integrateStep g.actor).snowballY + SNOWBALL_SIZE) H
      (integrateStep g.actor) g.tiles false with ⟨b, hc⟩ | hc
  · simp only [updatePhysics, hc]
    split
    · split
      · exact ⟨_, 0, le_refl 0, Or.inr (Or.inl rfl), Or.inl rfl⟩
      · exact ⟨_, _, pickup_bonus_nonneg _ _ _ _, Or.inr (Or.inl rfl),
          Or.inr ⟨_, _, _, _, rfl⟩⟩
    · split
      · exact ⟨_, 0, le_refl 0, Or.inl rfl, Or.inl rfl⟩
      · exact ⟨_, _, pickup_bonus_nonneg _ _ _ _, Or.inl rfl,
          Or.inr ⟨_, _, _, _, rfl⟩⟩
  · simp only [updatePhysics, hc]
    norm_num
    split
    · exact ⟨_, 0, le_refl 0, Or.inr (Or.inr rfl), Or.inl rfl⟩
    · exact ⟨_, _, pickup_bonus_nonneg _ _ _ _, Or.inr (Or.inr rfl),
        Or.inr ⟨_, _, _, _, rfl⟩⟩

/-! ### Field equations of the integration stage -/

lemma integrateStep_isOnGround (a : ActorState) :
    (integrateStep a).isOnGround = a.isOnGround := rfl

lemma integrateStep_hasDoubleJump (a : ActorState) :
    (integrateStep a).hasDoubleJump = a.hasDoubleJump := rfl

lemma integrateStep_coyoteTimer (a : ActorState) :
    (integrateStep a).coyoteTimer = a.coyoteTimer - 1 := rfl

lemma integrateStep_jumpBufferTimer (a : ActorState) :
    (integrateStep a).jumpBufferTimer = a.jumpBufferTimer - 1 := rfl

lemma integrateStep_velocity (a : ActorState) :
    (integrateStep a).velocity = postVel a := rfl

lemma integrateStep_snowballY (a : ActorState) :
    (integrateStep a).snowballY = a.snowballY + postVel a := rfl

lemma integrateStep_score (a : ActorState) :
    (integrateStep a).score = a.score + postSpeed a / 100 := rfl

lemma integrateStep_speed (a : ActorState) :
    (integrateStep a).speed = postSpeed a := rfl

/-! ### Phase, score and speed across a step -/

lemma updatePhysics_phase (W H : ℚ) (c : Choice) (g : GameState) :
    (updatePhysics W H c g).phase = g.phase ∨
    (updatePhysics W H c g).phase = Phase.gameOver := by
  obtain ⟨a3, q, -, -, h | ⟨tl, cls, tc, cc, h⟩⟩ := updatePhysics_shape W H c g
  · rw [h]
    exact Or.inr rfl
  · rw [h]
    exact Or.inl rfl

lemma updatePhysics_gameOver_absorbing (W H : ℚ) (c : Choice) (g : GameState)
    (h : g.phase = Phase.gameOver) :
    (updatePhysics W H c g).phase = Phase.gameOver := by
  rcases updatePhysics_phase W H c g with h2 | h2
  · rw [h2, h]
  · exact h2

lemma postSpeed_pos (a : ActorState) (hsp : 0 ≤ a.speed) : 0 < postSpeed a := by
  have h1 : 0 < a.speed + SPEED_INCREMENT := by
    simp only [SPEED_INCREMENT]
    linarith
  have h2 : (0 : ℚ) < MAX_SPEED := by
    norm_num [MAX_SPEED]
  exact lt_min h1 h2

lemma updatePhysics_score_speed (W H : ℚ) (c : Choice) (g : GameState)
    (hsp : 0 ≤ g.actor.speed) :
    g.actor.score ≤ (updatePhysics W H c g).actor.score ∧
    0 ≤ (updatePhysics W H c g).actor.speed := by
  have hps : 0 < postSpeed g.actor := postSpeed_pos g.actor hsp
  obtain ⟨a3, q, hq, ha3, hupd⟩ := updatePhysics_shape W H c g
  have hsc : a3.score = g.actor.score + postSpeed g.actor / 100 := by
    rcases ha3 with rfl | rfl | rfl
    · rfl
    · rfl
    · rw [(landApply_fields H _).1, integrateStep_score]
  have hspd : a3.speed = postSpeed g.actor := by
    rcases ha3 with rfl | rfl | rfl
    · rfl
    · rfl
    · rw [(landApply_fields H _).2.1, integrateStep_speed]
  rcases hupd with h | ⟨tl, cls, tc, cc, h⟩
  · rw [h]
    constructor
    · show g.actor.score ≤ a3.score
      rw [hsc]
      linarith
    · show 0 ≤ a3.speed
      rw [hspd]
      linarith
  · rw [h]
    constructor
    · show g.actor.score ≤ a3.score + q
      rw [hsc]
      linarith
    · show 0 ≤ a3.speed
      rw [hspd]
      linarith

/-! ### Steps that resolve no landing keep an airborne actor airborne -/

lemma updatePhysics_airborne_inert (W H : ℚ) (c : Choice) (g : GameState)
    (hln : stepLands H g = false)
    (hg : g.actor.isOnGround = false) (hdj : g.actor.hasDoubleJump = false)
    (hcy : g.actor.coyoteTimer = 0) :
    (updatePhysics W H c g).actor.isOnGround = false ∧
    (updatePhysics W H c g).actor.hasDoubleJump = false ∧
    (updatePhysics W H c g).actor.coyoteTimer = 0 := by
  have hln' : (collide (integrateStep g.actor).cameraX
      ((integrateStep g.actor).snowballY + SNOWBALL_SIZE) H
      (integrateStep g.actor) g.tiles false).2.2 = false := hln
  have h1 : (collide (integrateStep g.actor).cameraX
      ((integrateStep g.actor).snowballY + SNOWBALL_SIZE) H
      (integrateStep g.actor) g.tiles false).1 = integrateStep g.actor :=
    collide_fst_of_no_land _ _ _ _ _ _ hln'
  simp only [updatePhysics, hln', h1]
  split
  · rename_i hcnd
    obtain ⟨-, hcontra, -⟩ := hcnd
    rw [integrateStep_isOnGround, hg] at hcontra
    cases hcontra
  · split
    · refine ⟨?_, ?_, ?_⟩
      · show (integrateStep g.actor).isOnGround = false
        rw [integrateStep_isOnGround, hg]
      · show (integrateStep g.actor).hasDoubleJump = false
        rw [integrateStep_hasDoubleJump, hdj]
      · show (integrateStep g.actor).coyoteTimer = 0
        rw [integrateStep_coyoteTimer, hcy]
    · refine ⟨?_, ?_, ?_⟩
      · show (integrateStep g.actor).isOnGround = false
        rw [integrateStep_isOnGround, hg]
      · show (integrateStep g.actor).hasDoubleJump = false
        rw [integrateStep_hasDoubleJump, hdj]
      · show (integrateStep g.actor).coyoteTimer = 0
        rw [integrateStep_coyoteTimer, hcy]

/-! ### The generation invariant (chained, positive-width tiles) -/

lemma keep_mono {a b : TileData} (hrel : TileRel a b) (hw : 0 < b.width)
    (bound : ℚ) (ha : keep bound a = true) : keep bound b = true := by
  obtain ⟨gp, hgp, hx⟩ := hrel
  have hgp0 : 0 < gp := gap_pos gp hgp
  simp only [keep, decide_eq_true_eq] at ha ⊢
  have : b.x + b.width / 2 = a.x + a.width / 2 + gp + b.width := by
    rw [hx]
    ring
  linarith

lemma keep_all (bound : ℚ) : ∀ (l : List TileData) (a : TileData),
    List.Chain' TileRel (a :: l) → (∀ t ∈ l, 0 < t.width) →
    keep bound a = true → ∀ b ∈ l, keep bound b = true := by
  intro l
  induction l with
  | nil =>
    intro a _ _ _ b hb
    cases hb
  | cons c rest ih =>
    intro a hchain hw ha b hb
    have hac : TileRel a c := List.rel_of_chain_cons hchain
    have hc : keep bound c = true :=
      keep_mono hac (hw c (List.mem_cons_self c rest)) bound ha
    rcases List.mem_cons.mp hb with rfl | hb'
    · exact hc
    · exact ih c hchain.tail
        (fun t ht => hw t (List.mem_cons_of_mem c ht)) hc b hb'

lemma filter_keep_suffix (bound : ℚ) : ∀ l : List TileData,
    List.Chain' TileRel l → (∀ t ∈ l, 0 < t.width) →
    l.filter (keep bound) <:+ l := by
  intro l
  induction l with
  | nil =>
    intro _ _
    simp
  | cons a rest ih =>
    intro hch hw
    by_cases ha : keep bound a = true
    · rw [List.filter_cons_of_pos ha]
      have hall : ∀ b ∈ rest, keep bound b = true :=
        keep_all bound rest a hch (fun t ht => hw t (List.mem_cons_of_mem a ht)) ha
      rw [List.filter_eq_self.mpr hall]
    · rw [List.filter_cons_of_neg (by simpa using ha)]
      exact (ih hch.tail (fun t ht => hw t (List.mem_cons_of_mem a ht))).trans
        (List.suffix_cons a rest)

lemma goodTiles_filter (bound : ℚ) (l : List TileData) (hg : GoodTiles l) :
    GoodTiles (l.filter (keep bound)) := by
  obtain ⟨hch, hw⟩ := hg
  refine ⟨hch.suffix (filter_keep_suffix bound l hch hw), ?_⟩
  intro t ht
  exact hw t (List.mem_of_mem_filter ht)

lemma spawnStep_good (W cam : ℚ) (c : Choice) (tiles : List TileData)
    (colls : List CollectibleData) (tCtr cCtr : Nat) (hg : GoodTiles tiles) :
    GoodTiles (spawnStep W cam c tiles colls tCtr cCtr).1 := by
  have hf : GoodTiles (tiles.filter (keep (cam - W))) := goodTiles_filter _ _ hg
  simp only [spawnStep]
  rcases hL : (List.filter (keep (cam - W)) tiles).getLast? with - | lt
  · simp only [hL]
    exact hf
  · simp only [hL]
    split
    · split
      · refine ⟨?_, ?_⟩
        · rw [List.chain'_append]
          refine ⟨hf.1, List.chain'_singleton _, ?_⟩
          intro x hx y hy
          rw [hL] at hx
          cases hx
          cases hy
          exact ⟨c.size.gap, c.size.gapMem, rfl⟩
        · intro t ht
          rcases List.mem_append.mp ht with ht' | ht'
          · exact hf.2 t ht'
          · cases ht'
            · exact width_pos _ c.size.widthMem
            · next h => cases h
      · refine ⟨?_, ?_⟩
        · rw [List.chain'_append]
          refine ⟨hf.1, List.chain'_singleton _, ?_⟩
          intro x hx y hy
          rw [hL] at hx
          cases hx
          cases hy
          exact ⟨c.size.gap, c.size.gapMem, rfl⟩
        · intro t ht
          rcases List.mem_append.mp ht with ht' | ht'
          · exact hf.2 t ht'
          · cases ht'
            · exact width_pos _ c.size.widthMem
            · next h => cases h
    · exact hf

lemma updatePhysics_goodTiles (W H : ℚ) (c : Choice) (g : GameState)
    (hg : GoodTiles g.tiles) : GoodTiles (updatePhysics W H c g).tiles := by
  rcases collide_eq_or (integrateStep g.actor).cameraX
      ((integrateStep g.actor).snowballY + SNOWBALL_SIZE) H
      (integrateStep g.actor) g.tiles false with ⟨b, hc⟩ | hc
  all_goals
    simp only [updatePhysics, hc]
  · split
    · split
      · exact hg
      · exact spawnStep_good _ _ _ _ _ _ _ hg
    · split
      · exact hg
      · exact spawnStep_good _ _ _ _ _ _ _ hg
  · split
    · split
      · exact hg
      · exact spawnStep_good _ _ _ _ _ _ _ hg
    · split
      · exact hg
      · exact spawnStep_good _ _ _ _ _ _ _ hg

lemma genTiles_chain : ∀ (cs : List SizeChoice) (prev : TileData) (ctr : Nat),
    List.Chain' TileRel (prev :: genTiles cs prev.x prev.width ctr) := by
  intro cs
  induction cs with
  | nil =>
    intro prev ctr
    simp [genTiles]
  | cons sc rest ih =>
    intro prev ctr
    simp only [genTiles]
    rw [List.chain'_cons]
    constructor
    · exact ⟨sc.gap, sc.gapMem, rfl⟩
    · exact ih ⟨ctr, prev.x + prev.width / 2 + sc.gap + sc.width / 2,
        sc.width, TileType.medium⟩ (ctr + 1)

lemma genTiles_width : ∀ (cs : List SizeChoice) (cc cw : ℚ) (ctr : Nat),
    ∀ t ∈ genTiles cs cc cw ctr, 0 < t.width := by
  intro cs
  induction cs with
  | nil =>
    intro cc cw ctr t ht
    cases ht
  | cons sc rest ih =>
    intro cc cw ctr t ht
    rcases List.mem_cons.mp ht with rfl | ht'
    · exact width_pos _ sc.widthMem
    · exact ih _ _ _ t ht'

lemma genTiles_width_mem : ∀ (cs : List SizeChoice) (cc cw : ℚ) (ctr : Nat),
    ∀ t ∈ genTiles cs cc cw ctr, t.width ∈ TILE_WIDTHS := by
  intro cs
  induction cs with
  | nil =>
    intro cc cw ctr t ht
    cases ht
  | cons sc rest ih =>
    intro cc cw ctr t ht
    rcases List.mem_cons.mp ht with rfl | ht'
    · exact sc.widthMem
    · exact ih _ _ _ t ht'

lemma spawnStep_new_width (W cam : ℚ) (c : Choice) (tiles : List TileData)
    (colls : List CollectibleData) (tCtr cCtr : Nat) :
    ∀ t ∈ (spawnStep W cam c tiles colls tCtr cCtr).1,
      t ∈ tiles ∨ t.width ∈ TILE_WIDTHS := by
  intro t ht
  simp only [spawnStep] at ht
  rcases hL : (List.filter (keep (cam - W)) tiles).getLast? with - | lt
  all_goals simp only [hL] at ht
  · exact Or.inl (List.mem_of_mem_filter ht)
  · split at ht
    · split at ht
      · rcases List.mem_append.mp ht with ht' | ht'
        · exact Or.inl (List.mem_of_mem_filter ht')
        · rw [List.mem_singleton] at ht'
          rw [ht']
          exact Or.inr c.size.widthMem
      · rcases List.mem_append.mp ht with ht' | ht'
        · exact Or.inl (List.mem_of_mem_filter ht')
        · rw [List.mem_singleton] at ht'
          rw [ht']
          exact Or.inr c.size.widthMem
    · exact Or.inl (List.mem_of_mem_filter ht)

lemma initTiles_good (cs : List SizeChoice) : GoodTiles (initTiles cs) := by
  constructor
  · exact genTiles_chain cs ⟨0, 0, 600, TileType.long⟩ 1
  · intro t ht
    rcases List.mem_cons.mp ht with rfl | ht'
    · norm_num
    · exact genTiles_width cs 0 600 1 t ht'

/-! ### Absorbing states: empty tile set, ended run -/

lemma updatePhysics_empty_tiles (W H : ℚ) (c : Choice) (g : GameState)
    (h : g.tiles = []) :
    (updatePhysics W H c g).tiles = [] ∧
    (updatePhysics W H c g).tileIdCounter = g.tileIdCounter ∧
    (updatePhysics W H c g).collectibleIdCounter = g.collectibleIdCounter ∧
    ∀ cl ∈ (updatePhysics W H c g).collectibles, ∃ cl0 ∈ g.collectibles,
      cl.id = cl0.id ∧ cl.x = cl0.x ∧ cl.tileId = cl0.tileId := by
  simp only [updatePhysics, h, collide, spawnStep, List.filter_nil,
    List.getLast?_nil]
  split
  · split
    · exact ⟨rfl, rfl, rfl, fun cl hcl => ⟨cl, hcl, rfl, rfl, rfl⟩⟩
    · refine ⟨rfl, rfl, rfl, ?_⟩
      intro cl hcl
      rw [pickup_eq_map] at hcl
      obtain ⟨cl0, hcl0, rfl⟩ := List.mem_map.mp hcl
      obtain ⟨hid, hx, htid⟩ := pickupOne_fields _ _ H cl0
      exact ⟨cl0, List.mem_of_mem_filter hcl0, hid, hx, htid⟩
  · split
    · exact ⟨rfl, rfl, rfl, fun cl hcl => ⟨cl, hcl, rfl, rfl, rfl⟩⟩
    · refine ⟨rfl, rfl, rfl, ?_⟩
      intro cl hcl
      rw [pickup_eq_map] at hcl
      obtain ⟨cl0, hcl0, rfl⟩ := List.mem_map.mp hcl
      obtain ⟨hid, hx, htid⟩ := pickupOne_fields _ _ H cl0
      exact ⟨cl0, List.mem_of_mem_filter hcl0, hid, hx, htid⟩

lemma frameSteps_empty_tiles (W H : ℚ) : ∀ (cs : List Choice) (g : GameState),
    g.tiles = [] → (frameSteps W H cs g).tiles = [] := by
  intro cs
  induction cs with
  | nil =>
    intro g h
    exact h
  | cons c rest ih =>
    intro g h
    exact ih _ (updatePhysics_empty_tiles W H c g h).1

lemma frameSteps_gameOver (W H : ℚ) : ∀ (cs : List Choice) (g : GameState),
    g.phase = Phase.gameOver → (frameSteps W H cs g).phase = Phase.gameOver := by
  intro cs
  induction cs with
  | nil =>
    intro g h
    exact h
  | cons c rest ih =>
    intro g h
    exact ih _ (updatePhysics_gameOver_absorbing W H c g h)

/-! ### The death region is absorbing within a frame -/

lemma postVel_pos (a : ActorState) (hv : 0 ≤ a.velocity) : 0 < postVel a := by
  have h1 : 0 < a.velocity + GRAVITY := by
    simp only [GRAVITY]
    linarith
  have h2 : (0 : ℚ) < TERMINAL_VELOCITY := by
    norm_num [TERMINAL_VELOCITY]
  exact lt_min h1 h2

lemma no_land_past_death (H : ℚ) (a : ActorState)
    (hy : H + 100 < a.snowballY + postVel a) :
    ¬(0 ≤ postBottom a - TILE_Y H ∧ postBottom a - TILE_Y H ≤ LANDING_TOLERANCE ∧
        0 ≤ postVel a) := by
  rintro ⟨-, h1, -⟩
  simp only [postBottom, TILE_Y, LANDING_TOLERANCE, SNOWBALL_SIZE] at h1
  linarith

/-- A step taken past the death line (with downward motion) ends the run,
freezes generation entirely, and still adds the passive distance score. -/
lemma updatePhysics_dead_step (W H : ℚ) (c : Choice) (g : GameState)
    (hy : H + 100 < g.actor.snowballY) (hv : 0 ≤ g.actor.velocity) :
    (updatePhysics W H c g).phase = Phase.gameOver ∧
    (updatePhysics W H c g).tiles = g.tiles ∧
    (updatePhysics W H c g).collectibles = g.collectibles ∧
    (updatePhysics W H c g).tileIdCounter = g.tileIdCounter ∧
    (updatePhysics W H c g).collectibleIdCounter = g.collectibleIdCounter ∧
    H + 100 < (updatePhysics W H c g).actor.snowballY ∧
    0 ≤ (updatePhysics W H c g).actor.velocity ∧
    (updatePhysics W H c g).actor.score
      = g.actor.score + postSpeed g.actor / 100 := by
  have hpv : 0 < postVel g.actor := postVel_pos g.actor hv
  have hy2 : H + 100 < g.actor.snowballY + postVel g.actor := by
    linarith
  obtain ⟨a3, hupd, hsy, hvel, hsc, -⟩ :=
    updatePhysics_death W H c g (no_land_past_death H g.actor hy2) hy2
  rw [hupd]
  refine ⟨rfl, rfl, rfl, rfl, rfl, ?_, ?_, ?_⟩
  · show H + 100 < a3.snowballY
    rw [hsy]
    exact hy2
  · show 0 ≤ a3.velocity
    rw [hvel]
    linarith
  · show a3.score = g.actor.score + postSpeed g.actor / 100
    exact hsc

/-! ### The three branches of the jump command -/

lemma handleTap_ground (now lastTap : ℚ) (a : ActorState)
    (h : a.isOnGround = true ∨ 0 < a.coyoteTimer) :
    handleTap now lastTap a =
      ({ a with
          velocity := JUMP_FORCE
          isOnGround := false
          coyoteTimer := 0
          hasDoubleJump := true }, now) := by
  simp only [handleTap, if_pos h]

lemma handleTap_double (now lastTap : ℚ) (a : ActorState)
    (hg : a.isOnGround = false) (hcy : a.coyoteTimer = 0)
    (hdj : a.hasDoubleJump = true) (ht : now - lastTap < 300) :
    handleTap now lastTap a =
      ({ a with velocity := DOUBLE_JUMP_FORCE, hasDoubleJump := false }, 0) := by
  have h1 : ¬(a.isOnGround = true ∨ 0 < a.coyoteTimer) := by
    rw [hg, hcy]
    simp
  have h2 : a.isOnGround = false ∧ a.hasDoubleJump = true ∧ now - lastTap < 300 :=
    ⟨hg, hdj, ht⟩
  simp only [handleTap, if_neg h1, if_pos h2]

lemma handleTap_buffer (now lastTap : ℚ) (a : ActorState)
    (hg : a.isOnGround = false) (hcy : a.coyoteTimer = 0)
    (hnd : ¬(a.hasDoubleJump = true ∧ now - lastTap < 300)) :
    handleTap now lastTap a =
      ({ a with jumpBufferTimer := JUMP_BUFFER_TIME }, now) := by
  have h1 : ¬(a.isOnGround = true ∨ 0 < a.coyoteTimer) := by
    rw [hg, hcy]
    simp
  have h2 : ¬(a.isOnGround = false ∧ a.hasDoubleJump = true ∧ now - lastTap < 300) := by
    rintro ⟨-, hd, ht⟩
    exact hnd ⟨hd, ht⟩
  simp only [handleTap, if_neg h1, if_neg h2, if_pos hg]

/-! ### The concrete three-tap sequence, evaluated -/

lemma tap1_eq : tap1 =
    ({ initActor 800 with
        velocity := JUMP_FORCE
        isOnGround := false
        coyoteTimer := 0
        hasDoubleJump := true }, 1000) :=
  handleTap_ground 1000 0 (initActor 800) (Or.inl rfl)

lemma tap2_eq : tap2 =
    ({ initActor 800 with
        velocity := DOUBLE_JUMP_FORCE
        isOnGround := false
        coyoteTimer := 0
        hasDoubleJump := false }, 0) := by
  show handleTap 1100 tap1.2 tap1.1 = _
  rw [tap1_eq]
  exact handleTap_double 1100 1000 _ rfl rfl rfl (by norm_num)

lemma tap3_eq : tap3 =
    ({ initActor 800 with
        velocity := DOUBLE_JUMP_FORCE
        isOnGround := false
        coyoteTimer := 0
        hasDoubleJump := false
        jumpBufferTimer := JUMP_BUFFER_TIME }, 1200) := by
  show handleTap 1200 tap2.2 tap2.1 = _
  rw [tap2_eq]
  refine handleTap_buffer 1200 0 _ rfl rfl ?_
  rintro ⟨h, -⟩
  cases h

/-! ## Claim theorems -/

/-- Claim C1 (amended): in any physics step whose integrated state
horizontally overlaps some tile, whose bottom edge is past the surface by at
most the landing tolerance, and whose velocity is non-negative, with no
buffered jump pending after the buffer decay, the resolver snaps the bottom
edge exactly onto the surface, zeroes the velocity, sets `isOnGround`,
refreshes the coyote timer to its full value 8, and records the landing Y as
last-grounded-Y - but it sets `hasDoubleJump` to `false` (the spec's claim
that it resets it to `true` fails, see `C1_counterexample`). -/
theorem C1_landing_resolution (W H : ℚ) (c : Choice) (g : GameState)
    (hbuf : g.actor.jumpBufferTimer ≤ 1)
    (h0 : 0 ≤ postBottom g.actor - TILE_Y H)
    (h1 : postBottom g.actor - TILE_Y H ≤ LANDING_TOLERANCE)
    (hv : 0 ≤ postVel g.actor)
    (hov : ∃ t ∈ g.tiles, overlaps (postCam g.actor) t) :
    (updatePhysics W H c g).actor.snowballY = TILE_Y H - SNOWBALL_SIZE ∧
    (updatePhysics W H c g).actor.velocity = 0 ∧
    (updatePhysics W H c g).actor.isOnGround = true ∧
    (updatePhysics W H c g).actor.hasDoubleJump = false ∧
    (updatePhysics W H c g).actor.coyoteTimer = COYOTE_TIME ∧
    (updatePhysics W H c g).actor.lastGroundY = TILE_Y H - SNOWBALL_SIZE := by
  obtain ⟨q, -, he⟩ := updatePhysics_land W H c g h0 h1 hv hov
  have hb1 : (integrateStep g.actor).jumpBufferTimer = 0 := by
    rw [integrateStep_jumpBufferTimer]
    omega
  rw [he, landApply_no_buffer H _ hb1]
  exact ⟨rfl, rfl, rfl, rfl, rfl, rfl⟩

/-- Claim C1 counterexample: at the concrete landing step from `gLand` every
premise of the claim holds (tolerance, downward motion, overlap, and no
pending buffer), yet the resolver leaves `hasDoubleJump = false`, not `true`
as the claim states. -/
theorem C1_counterexample :
    (gLand.actor.jumpBufferTimer = 0 ∧
      0 ≤ postBottom gLand.actor - TILE_Y 800 ∧
      postBottom gLand.actor - TILE_Y 800 ≤ LANDING_TOLERANCE ∧
      0 ≤ postVel gLand.actor ∧
      (∃ t ∈ gLand.tiles, overlaps (postCam gLand.actor) t)) ∧
    (updatePhysics 400 800 chA gLand).actor.hasDoubleJump = false ∧
    ¬((updatePhysics 400 800 chA gLand).actor.hasDoubleJump = true) := by
  have h0 : 0 ≤ postBottom gLand.actor - TILE_Y 800 := by
    norm_num [postBottom, postVel, gLand, aLand, GRAVITY, TERMINAL_VELOCITY,
      TILE_Y, SNOWBALL_SIZE, min_def]
  have h1 : postBottom gLand.actor - TILE_Y 800 ≤ LANDING_TOLERANCE := by
    norm_num [postBottom, postVel, gLand, aLand, GRAVITY, TERMINAL_VELOCITY,
      TILE_Y, SNOWBALL_SIZE, LANDING_TOLERANCE, min_def]
  have hv : 0 ≤ postVel gLand.actor := by
    norm_num [postVel, gLand, aLand, GRAVITY, TERMINAL_VELOCITY, min_def]
  have hov : ∃ t ∈ gLand.tiles, overlaps (postCam gLand.actor) t := by
    refine ⟨tileStart, by simp [gLand], ?_⟩
    norm_num [overlaps, postCam, postSpeed, gLand, aLand, tileStart,
      SNOWBALL_SIZE, INITIAL_SPEED, SPEED_INCREMENT, MAX_SPEED, min_def]
  obtain ⟨q, -, he⟩ := updatePhysics_land 400 800 chA gLand h0 h1 hv hov
  have hb1 : (integrateStep gLand.actor).jumpBufferTimer = 0 := rfl
  rw [he, landApply_no_buffer 800 _ hb1]
  exact ⟨⟨rfl, h0, h1, hv, hov⟩, rfl, by simp⟩

/-- Claim C1 witness: the amended landing resolution evaluated on the
concrete landing step `gLand`. -/
theorem C1_witness :
    (updatePhysics 400 800 chA gLand).actor.snowballY = TILE_Y 800 - SNOWBALL_SIZE ∧
    (updatePhysics 400 800 chA gLand).actor.velocity = 0 ∧
    (updatePhysics 400 800 chA gLand).actor.isOnGround = true ∧
    (updatePhysics 400 800 chA gLand).actor.hasDoubleJump = false ∧
    (updatePhysics 400 800 chA gLand).actor.coyoteTimer = COYOTE_TIME ∧
    (updatePhysics 400 800 chA gLand).actor.lastGroundY = TILE_Y 800 - SNOWBALL_SIZE :=
  C1_landing_resolution 400 800 chA gLand (by norm_num [gLand, aLand])
    (by norm_num [postBottom, postVel, gLand, aLand, GRAVITY, TERMINAL_VELOCITY,
      TILE_Y, SNOWBALL_SIZE, min_def])
    (by norm_num [postBottom, postVel, gLand, aLand, GRAVITY, TERMINAL_VELOCITY,
      TILE_Y, SNOWBALL_SIZE, LANDING_TOLERANCE, min_def])
    (by norm_num [postVel, gLand, aLand, GRAVITY, TERMINAL_VELOCITY, min_def])
    ⟨tileStart, by simp [gLand], by
      norm_num [overlaps, postCam, postSpeed, gLand, aLand, tileStart,
        SNOWBALL_SIZE, INITIAL_SPEED, SPEED_INCREMENT, MAX_SPEED, min_def]⟩

/-- Claim C2 (amended): a landing that resolves while the (decayed) jump
buffer is still pending immediately re-triggers the primary jump - velocity
becomes `JUMP_FORCE`, the actor is airborne again, the double jump is
re-granted, and the buffer is cleared - but, unlike a fresh ground jump
(which zeroes the coyote timer, see `handleTap`), it leaves the coyote timer
at its freshly refreshed full value 8. -/
theorem C2_buffered_landing (W H : ℚ) (c : Choice) (g : GameState)
    (hbuf : 2 ≤ g.actor.jumpBufferTimer)
    (h0 : 0 ≤ postBottom g.actor - TILE_Y H)
    (h1 : postBottom g.actor - TILE_Y H ≤ LANDING_TOLERANCE)
    (hv : 0 ≤ postVel g.actor)
    (hov : ∃ t ∈ g.tiles, overlaps (postCam g.actor) t) :
    (updatePhysics W H c g).actor.velocity = JUMP_FORCE ∧
    (updatePhysics W H c g).actor.isOnGround = false ∧
    (updatePhysics W H c g).actor.hasDoubleJump = true ∧
    (updatePhysics W H c g).actor.jumpBufferTimer = 0 ∧
    (updatePhysics W H c g).actor.coyoteTimer = COYOTE_TIME ∧
    (updatePhysics W H c g).actor.snowballY = TILE_Y H - SNOWBALL_SIZE := by
  obtain ⟨q, -, he⟩ := updatePhysics_land W H c g h0 h1 hv hov
  have hb1 : 0 < (integrateStep g.actor).jumpBufferTimer := by
    rw [integrateStep_jumpBufferTimer]
    omega
  rw [he, landApply_buffer H _ hb1]
  exact ⟨rfl, rfl, rfl, rfl, rfl, rfl⟩

/-- Claim C2 counterexample: at the concrete buffered landing from
`gLandBuf` the landing resolves with the buffer pending, and the resulting
coyote timer is 8, not the 0 a fresh ground jump would produce - so the
resulting state is not identical to a fresh ground jump's. -/
theorem C2_counterexample :
    (0 < gLandBuf.actor.jumpBufferTimer - 1 ∧
      0 ≤ postBottom gLandBuf.actor - TILE_Y 800 ∧
      postBottom gLandBuf.actor - TILE_Y 800 ≤ LANDING_TOLERANCE ∧
      0 ≤ postVel gLandBuf.actor ∧
      (∃ t ∈ gLandBuf.tiles, overlaps (postCam gLandBuf.actor) t)) ∧
    (updatePhysics 400 800 chA gLandBuf).actor.velocity = JUMP_FORCE ∧
    (updatePhysics 400 800 chA gLandBuf).actor.coyoteTimer = COYOTE_TIME ∧
    ¬((updatePhysics 400 800 chA gLandBuf).actor.coyoteTimer = 0) := by
  have h0 : 0 ≤ postBottom gLandBuf.actor - TILE_Y 800 := by
    norm_num [postBottom, postVel, gLandBuf, gLand, aLand, GRAVITY,
      TERMINAL_VELOCITY, TILE_Y, SNOWBALL_SIZE, min_def]
  have h1 : postBottom gLandBuf.actor - TILE_Y 800 ≤ LANDING_TOLERANCE := by
    norm_num [postBottom, postVel, gLandBuf, gLand, aLand, GRAVITY,
      TERMINAL_VELOCITY, TILE_Y, SNOWBALL_SIZE, LANDING_TOLERANCE, min_def]
  have hv : 0 ≤ postVel gLandBuf.actor := by
    norm_num [postVel, gLandBuf, gLand, aLand, GRAVITY, TERMINAL_VELOCITY, min_def]
  have hov : ∃ t ∈ gLandBuf.tiles, overlaps (postCam gLandBuf.actor) t := by
    refine ⟨tileStart, by simp [gLandBuf, gLand], ?_⟩
    norm_num [overlaps, postCam, postSpeed, gLandBuf, gLand, aLand, tileStart,
      SNOWBALL_SIZE, INITIAL_SPEED, SPEED_INCREMENT, MAX_SPEED, min_def]
  obtain ⟨q, -, he⟩ := updatePhysics_land 400 800 chA gLandBuf h0 h1 hv hov
  have hb1 : 0 < (integrateStep gLandBuf.actor).jumpBufferTimer := by
    rw [integrateStep_jumpBufferTimer]
    norm_num [gLandBuf, gLand, aLand]
  rw [he, landApply_buffer 800 _ hb1]
  refine ⟨⟨by norm_num [gLandBuf, gLand, aLand], h0, h1, hv, hov⟩, rfl, rfl, ?_⟩
  norm_num [COYOTE_TIME]

/-- Claim C2 witness: the amended buffered-landing behavior evaluated on the
concrete buffered landing step `gLandBuf`. -/
theorem C2_witness :
    (updatePhysics 400 800 chA gLandBuf).actor.velocity = JUMP_FORCE ∧
    (updatePhysics 400 800 chA gLandBuf).actor.isOnGround = false ∧
    (updatePhysics 400 800 chA gLandBuf).actor.hasDoubleJump = true ∧
    (updatePhysics 400 800 chA gLandBuf).actor.jumpBufferTimer = 0 ∧
    (updatePhysics 400 800 chA gLandBuf).actor.coyoteTimer = COYOTE_TIME ∧
    (updatePhysics 400 800 chA gLandBuf).actor.snowballY = TILE_Y 800 - SNOWBALL_SIZE :=
  C2_buffered_landing 400 800 chA gLandBuf (by norm_num [gLandBuf, gLand, aLand])
    (by norm_num [postBottom, postVel, gLandBuf, gLand, aLand, GRAVITY,
      TERMINAL_VELOCITY, TILE_Y, SNOWBALL_SIZE, min_def])
    (by norm_num [postBottom, postVel, gLandBuf, gLand, aLand, GRAVITY,
      TERMINAL_VELOCITY, TILE_Y, SNOWBALL_SIZE, LANDING_TOLERANCE, min_def])
    (by norm_num [postVel, gLandBuf, gLand, aLand, GRAVITY, TERMINAL_VELOCITY, min_def])
    ⟨tileStart, by simp [gLandBuf, gLand], by
      norm_num [overlaps, postCam, postSpeed, gLandBuf, gLand, aLand, tileStart,
        SNOWBALL_SIZE, INITIAL_SPEED, SPEED_INCREMENT, MAX_SPEED, min_def]⟩

/-- Claim C3 (amended): a ground (or coyote) tap performs the primary jump
and grants the double jump; a second tap while airborne with no coyote
window, the double jump available and less than 300ms since the recorded
tap, sets velocity to `DOUBLE_JUMP_FORCE` and clears the double jump with
the tap record reset to the sentinel 0, so it can fire only once; a third
tap while still airborne does not change velocity, position, groundedness or
the double-jump flag - but it is not a no-op on the actor state: it arms the
jump buffer (6 frames) and records the tap time (see `C3_counterexample`);
and a step that resolves no landing keeps such an actor in that airborne,
double-jump-spent configuration. -/
theorem C3_double_jump :
    (∀ (a : ActorState) (lastTap now : ℚ),
      (a.isOnGround = true ∨ 0 < a.coyoteTimer) →
      handleTap now lastTap a =
        ({ a with
            velocity := JUMP_FORCE
            isOnGround := false
            coyoteTimer := 0
            hasDoubleJump := true }, now)) ∧
    (∀ (a : ActorState) (lastTap now : ℚ),
      a.isOnGround = false → a.coyoteTimer = 0 → a.hasDoubleJump = true →
      now - lastTap < 300 →
      handleTap now lastTap a =
        ({ a with velocity := DOUBLE_JUMP_FORCE, hasDoubleJump := false }, 0)) ∧
    (∀ (a : ActorState) (lastTap now : ℚ),
      a.isOnGround = false → a.coyoteTimer = 0 → a.hasDoubleJump = false →
      handleTap now lastTap a =
        ({ a with jumpBufferTimer := JUMP_BUFFER_TIME }, now)) ∧
    (∀ (W H : ℚ) (c : Choice) (g : GameState),
      stepLands H g = false → g.actor.isOnGround = false →
      g.actor.hasDoubleJump = false → g.actor.coyoteTimer = 0 →
      (updatePhysics W H c g).actor.isOnGround = false ∧
      (updatePhysics W H c g).actor.hasDoubleJump = false ∧
      (updatePhysics W H c g).actor.coyoteTimer = 0) := by
  refine ⟨?_, ?_, ?_, updatePhysics_airborne_inert⟩
  · intro a lastTap now h
    exact handleTap_ground now lastTap a h
  · intro a lastTap now hg hcy hdj ht
    exact handleTap_double now lastTap a hg hcy hdj ht
  · intro a lastTap now hg hcy hdj
    refine handleTap_buffer now lastTap a hg hcy ?_
    rintro ⟨h, -⟩
    rw [hdj] at h
    cases h

/-- Claim C3 counterexample: in the concrete tap sequence ground jump
(t=1000), double jump (t=1100), third tap (t=1200, airborne, before any
landing), the double jump fires exactly once, but the third tap changes the
actor state: it arms the jump buffer, so it is not effect-free. -/
theorem C3_counterexample :
    tap2.1.velocity = DOUBLE_JUMP_FORCE ∧ tap2.1.hasDoubleJump = false ∧
    tap2.1.isOnGround = false ∧ tap2.1.jumpBufferTimer = 0 ∧
    tap3.1.jumpBufferTimer = JUMP_BUFFER_TIME ∧ ¬(tap3.1 = tap2.1) := by
  rw [tap2_eq, tap3_eq]
  refine ⟨rfl, rfl, rfl, rfl, rfl, ?_⟩
  intro h
  have hc := congrArg ActorState.jumpBufferTimer h
  simp only [initActor] at hc
  cases hc

/-- Claim C3 witness: the double jump and the buffered third tap evaluated
on the concrete tap sequence. -/
theorem C3_witness :
    handleTap 1100 tap1.2 tap1.1 =
      ({ tap1.1 with velocity := DOUBLE_JUMP_FORCE, hasDoubleJump := false }, 0) ∧
    handleTap 1200 tap2.2 tap2.1 =
      ({ tap2.1 with jumpBufferTimer := JUMP_BUFFER_TIME }, 1200) := by
  constructor
  · exact C3_double_jump.2.1 tap1.1 tap1.2 1100 (by rw [tap1_eq])
      (by rw [tap1_eq]) (by rw [tap1_eq]) (by rw [tap1_eq]; norm_num)
  · exact C3_double_jump.2.2.1 tap2.1 tap2.2 1200 (by rw [tap2_eq])
      (by rw [tap2_eq]) (by rw [tap2_eq])

/-- Claim C4 (confirmed): the initial layout and every step preserve the
generation invariant - consecutive tiles are placed at
`previous right edge + gap + half new width` with the gap drawn from
`GAP_SIZES`; every generated (non-safe-platform) tile width is drawn from
`TILE_WIDTHS`; and chained tiles never overlap, with the inter-tile gap
always one of the allowed gap values. -/
theorem C4_generation :
    (∀ cs : List SizeChoice, GoodTiles (initTiles cs)) ∧
    (∀ (W H : ℚ) (c : Choice) (g : GameState),
      GoodTiles g.tiles → GoodTiles (updatePhysics W H c g).tiles) ∧
    (∀ (cs : List SizeChoice) (cc cw : ℚ) (ctr : Nat),
      ∀ t ∈ genTiles cs cc cw ctr, t.width ∈ TILE_WIDTHS) ∧
    (∀ (W cam : ℚ) (c : Choice) (tiles : List TileData)
        (colls : List CollectibleData) (tCtr cCtr : Nat),
      ∀ t ∈ (spawnStep W cam c tiles colls tCtr cCtr).1,
        t ∈ tiles ∨ t.width ∈ TILE_WIDTHS) ∧
    (∀ l : List TileData, GoodTiles l →
      l.Chain' (fun a b =>
        a.x + a.width / 2 < b.x - b.width / 2 ∧
        (b.x - b.width / 2) - (a.x + a.width / 2) ∈ GAP_SIZES)) := by
  refine ⟨initTiles_good, updatePhysics_goodTiles, genTiles_width_mem,
    spawnStep_new_width, ?_⟩
  intro l hl
  refine hl.1.imp ?_
  intro a b hrel
  obtain ⟨gp, hgp, hx⟩ := hrel
  have hgap : (b.x - b.width / 2) - (a.x + a.width / 2) = gp := by
    rw [hx]
    ring
  constructor
  · have hp := gap_pos gp hgp
    linarith
  · rw [hgap]
    exact hgp

/-- Claim C4 witness: the generation invariant evaluated on a concrete
initial layout and one concrete step. -/
theorem C4_witness :
    GoodTiles (initTiles [scA]) ∧
    GoodTiles ((updatePhysics 400 800 chA gRest).tiles) := by
  constructor
  · exact C4_generation.1 [scA]
  · refine C4_generation.2.1 400 800 chA gRest ?_
    show GoodTiles [tileStart]
    constructor
    · exact List.chain'_singleton _
    · intro t ht
      rw [List.mem_singleton] at ht
      rw [ht]
      norm_num [tileStart]

/-- Claim C5 (amended): frames stop once the phase leaves `playing`, so no
score accrues in later frames; a step only ever changes the phase to
`gameOver` (the transition happens at most once); the step on which the
actor passes the death line without landing ends the run and leaves tiles,
collectibles and both id counters untouched; and every further step past the
death line keeps the run ended and generation frozen - but each such step
still adds the passive distance score `speed/100`, so fixed steps already
queued in the frame of the transition keep accruing score after it (see
`C5_counterexample`). -/
theorem C5_death_lifecycle :
    (∀ (W H : ℚ) (cs : List Choice) (g : GameState),
      g.phase ≠ Phase.playing → runFrame W H cs g = g) ∧
    (∀ (W H : ℚ) (c : Choice) (g : GameState),
      (updatePhysics W H c g).phase = g.phase ∨
      (updatePhysics W H c g).phase = Phase.gameOver) ∧
    (∀ (W H : ℚ) (c : Choice) (g : GameState),
      ¬(0 ≤ postBottom g.actor - TILE_Y H ∧
          postBottom g.actor - TILE_Y H ≤ LANDING_TOLERANCE ∧
          0 ≤ postVel g.actor) →
      H + 100 < g.actor.snowballY + postVel g.actor →
      (updatePhysics W H c g).phase = Phase.gameOver ∧
      (updatePhysics W H c g).tiles = g.tiles ∧
      (updatePhysics W H c g).collectibles = g.collectibles ∧
      (updatePhysics W H c g).tileIdCounter = g.tileIdCounter ∧
      (updatePhysics W H c g).collectibleIdCounter = g.collectibleIdCounter) ∧
    (∀ (W H : ℚ) (c : Choice) (g : GameState),
      H + 100 < g.actor.snowballY → 0 ≤ g.actor.velocity →
      (updatePhysics W H c g).phase = Phase.gameOver ∧
      (updatePhysics W H c g).tiles = g.tiles ∧
      (updatePhysics W H c g).collectibles = g.collectibles ∧
      (updatePhysics W H c g).tileIdCounter = g.tileIdCounter ∧
      (updatePhysics W H c g).collectibleIdCounter = g.collectibleIdCounter ∧
      H + 100 < (updatePhysics W H c g).actor.snowballY ∧
      0 ≤ (updatePhysics W H c g).actor.velocity ∧
      (updatePhysics W H c g).actor.score
        = g.actor.score + postSpeed g.actor / 100) := by
  refine ⟨?_, updatePhysics_phase, ?_, updatePhysics_dead_step⟩
  · intro W H cs g h
    simp only [runFrame, if_neg h]
  · intro W H c g hnl hy
    obtain ⟨a3, hupd, -⟩ := updatePhysics_death W H c g hnl hy
    rw [hupd]
    exact ⟨rfl, rfl, rfl, rfl, rfl⟩

/-- Claim C5 counterexample: a frame with two queued fixed steps starting
from `gFall` (one step above the death line): the first step performs the
running-to-ended transition, and the second, already-queued step still adds
passive distance score after the transition - so score does accrue after the
transition within that frame. -/
theorem C5_counterexample :
    (frameSteps 400 800 [chA] gFall).phase = Phase.gameOver ∧
    (frameSteps 400 800 [chA, chA] gFall).phase = Phase.gameOver ∧
    (frameSteps 400 800 [chA] gFall).actor.score
      < (frameSteps 400 800 [chA, chA] gFall).actor.score := by
  have hy2 : (800 : ℚ) + 100 < gFall.actor.snowballY + postVel gFall.actor := by
    norm_num [gFall, postVel, GRAVITY, TERMINAL_VELOCITY, min_def]
  obtain ⟨a3, hupd, hsy, hvel, hsc, hspd⟩ :=
    updatePhysics_death 400 800 chA gFall
      (no_land_past_death 800 gFall.actor hy2) hy2
  have hs1 : frameSteps 400 800 [chA] gFall
      = { gFall with actor := a3, phase := Phase.gameOver } := by
    simp only [frameSteps, hupd]
  have hs2 : frameSteps 400 800 [chA, chA] gFall
      = updatePhysics 400 800 chA { gFall with actor := a3, phase := Phase.gameOver } := by
    simp only [frameSteps, hupd]
  have hy1 : (800 : ℚ) + 100
      < ({ gFall with actor := a3, phase := Phase.gameOver } : GameState).actor.snowballY := by
    show (800 : ℚ) + 100 < a3.snowballY
    rw [hsy]
    exact hy2
  have hsp0 : (0 : ℚ) ≤ gFall.actor.speed := by
    norm_num [gFall, INITIAL_SPEED]
  have hv1 : (0 : ℚ)
      ≤ ({ gFall with actor := a3, phase := Phase.gameOver } : GameState).actor.velocity := by
    show (0 : ℚ) ≤ a3.velocity
    rw [hvel]
    have := postVel_pos gFall.actor (by norm_num [gFall])
    linarith
  have hd2 := updatePhysics_dead_step 400 800 chA
    { gFall with actor := a3, phase := Phase.gameOver } hy1 hv1
  refine ⟨?_, ?_, ?_⟩
  · rw [hs1]
  · rw [hs2]
    exact hd2.1
  · rw [hs1, hs2, hd2.2.2.2.2.2.2.2]
    have hp2 : 0 < postSpeed
        ({ gFall with actor := a3, phase := Phase.gameOver } : GameState).actor := by
      refine postSpeed_pos _ ?_
      show (0 : ℚ) ≤ a3.speed
      rw [hspd]
      have := postSpeed_pos gFall.actor hsp0
      linarith
    show a3.score < a3.score + _ / 100
    linarith

/-- Claim C5 witness: the frozen-after-death behavior evaluated on the
concrete ended run `gDead`. -/
theorem C5_witness :
    runFrame 400 800 [chA] gDead = gDead ∧
    (updatePhysics 400 800 chA gDead).phase = Phase.gameOver ∧
    (updatePhysics 400 800 chA gDead).tiles = gDead.tiles ∧
    (updatePhysics 400 800 chA gDead).collectibles = gDead.collectibles := by
  have h := C5_death_lifecycle.2.2.2 400 800 chA gDead
    (by norm_num [gDead, gFall]) (by norm_num [gDead, gFall])
  exact ⟨C5_death_lifecycle.1 400 800 [chA] gDead (by simp [gDead]),
    h.1, h.2.1, h.2.2.1⟩

/-- Claim C6 (confirmed): the score starts a run at exactly 0 (and the speed
at `INITIAL_SPEED`), and every step of a run with non-negative speed keeps
the speed non-negative and never decreases the score. -/
theorem C6_score_monotone :
    (∀ (H : ℚ) (cs : List SizeChoice),
      (initGame H cs).actor.score = 0 ∧
      (initGame H cs).actor.speed = INITIAL_SPEED) ∧
    (∀ (W H : ℚ) (c : Choice) (g : GameState), 0 ≤ g.actor.speed →
      g.actor.score ≤ (updatePhysics W H c g).actor.score ∧
      0 ≤ (updatePhysics W H c g).actor.speed) :=
  ⟨fun _ _ => ⟨rfl, rfl⟩, updatePhysics_score_speed⟩

/-- Claim C6 witness: score reset and one-step monotonicity evaluated on the
concrete resting run `gRest`. -/
theorem C6_witness :
    ((initGame 800 []).actor.score = 0 ∧
      (initGame 800 []).actor.speed = INITIAL_SPEED) ∧
    (gRest.actor.score ≤ (updatePhysics 400 800 chA gRest).actor.score ∧
      0 ≤ (updatePhysics 400 800 chA gRest).actor.speed) :=
  ⟨C6_score_monotone.1 800 [],
    C6_score_monotone.2 400 800 chA gRest
      (by norm_num [gRest, initActor, INITIAL_SPEED])⟩

/-- Claim C7 (confirmed): landing is idempotent within the tolerance band -
an actor resting exactly on the surface with velocity 0, grounded, with no
queued jump and a tile still under it after the camera advance, is again
resting exactly on the surface, with velocity 0 and grounded, after the next
physics step. -/
theorem C7_landing_idempotent (W H : ℚ) (c : Choice) (g : GameState)
    (hy : g.actor.snowballY = TILE_Y H - SNOWBALL_SIZE)
    (hv : g.actor.velocity = 0)
    (hg : g.actor.isOnGround = true)
    (hbuf : g.actor.jumpBufferTimer = 0)
    (hov : ∃ t ∈ g.tiles, overlaps (postCam g.actor) t) :
    (updatePhysics W H c g).actor.snowballY = TILE_Y H - SNOWBALL_SIZE ∧
    (updatePhysics W H c g).actor.velocity = 0 ∧
    (updatePhysics W H c g).actor.isOnGround = true := by
  have hpv : postVel g.actor = 3/5 := by
    rw [postVel, hv]
    norm_num [GRAVITY, TERMINAL_VELOCITY, min_def]
  have h0 : 0 ≤ postBottom g.actor - TILE_Y H := by
    rw [postBottom, hy, hpv]
    simp only [TILE_Y, SNOWBALL_SIZE]
    linarith
  have h1 : postBottom g.actor - TILE_Y H ≤ LANDING_TOLERANCE := by
    rw [postBottom, hy, hpv]
    simp only [TILE_Y, SNOWBALL_SIZE, LANDING_TOLERANCE]
    linarith
  have hv' : 0 ≤ postVel g.actor := by
    rw [hpv]
    norm_num
  obtain ⟨q, -, he⟩ := updatePhysics_land W H c g h0 h1 hv' hov
  have hb1 : (integrateStep g.actor).jumpBufferTimer = 0 := by
    rw [integrateStep_jumpBufferTimer, hbuf]
  rw [he, landApply_no_buffer H _ hb1]
  exact ⟨rfl, rfl, rfl⟩

/-- Claim C7 witness: the resting actor of `gRest` stays snapped to the
surface, at velocity 0 and grounded, across a concrete step. -/
theorem C7_witness :
    (updatePhysics 400 800 chA gRest).actor.snowballY = TILE_Y 800 - SNOWBALL_SIZE ∧
    (updatePhysics 400 800 chA gRest).actor.velocity = 0 ∧
    (updatePhysics 400 800 chA gRest).actor.isOnGround = true :=
  C7_landing_idempotent 400 800 chA gRest rfl rfl rfl rfl
    ⟨tileStart, by simp [gRest], by
      norm_num [overlaps, postCam, postSpeed, gRest, initActor, tileStart,
        SNOWBALL_SIZE, INITIAL_SPEED, SPEED_INCREMENT, MAX_SPEED, min_def]⟩

/-- Claim C8 (confirmed): integration adds gravity, clamps the velocity at
`TERMINAL_VELOCITY = 20` (so the integrated velocity never exceeds it), and
only then adds the velocity to the position. -/
theorem C8_terminal_velocity_clamp (a : ActorState) :
    (integrateStep a).velocity ≤ TERMINAL_VELOCITY ∧
    (integrateStep a).velocity = min (a.velocity + GRAVITY) TERMINAL_VELOCITY ∧
    (integrateStep a).snowballY = a.snowballY + (integrateStep a).velocity ∧
    TERMINAL_VELOCITY = 20 := by
  refine ⟨?_, rfl, rfl, rfl⟩
  rw [integrateStep_velocity, postVel]
  exact min_le_right _ _

/-- Claim C9 (confirmed): the pickup pass marks exactly the uncollected
collectibles within horizontal distance 40 of the camera and whose fixed
vertical placement is within 50 of the actor, each exactly once, adding 10
points per collected one; an already collected collectible is inert - it is
never changed and never qualifies again. -/
theorem C9_collectible_pickup (cam y H : ℚ) (cols : List CollectibleData) :
    pickup cam y H cols =
      (cols.map (pickupOne cam y H),
        10 * (cols.countP (qualifies cam y H) : ℚ)) ∧
    (∀ cl : CollectibleData, cl.collected = true →
      pickupOne cam y H cl = cl ∧ qualifies cam y H cl = false) ∧
    (∀ cl : CollectibleData, cl.collected = false → |cl.x - cam| < 40 →
      |y - (TILE_Y H - 70)| < 50 →
      pickupOne cam y H cl = { cl with collected := true }) := by
  refine ⟨pickup_eq_map cam y H cols, ?_, ?_⟩
  · intro cl hcl
    constructor
    · rw [pickupOne, if_neg]
      rintro ⟨h, -⟩
      rw [hcl] at h
      cases h
    · simp [qualifies, hcl]
  · intro cl h1 h2 h3
    have hq : cl.collected = false ∧ |cl.x - cam| < 40 ∧
        |y - (TILE_Y H - 70)| < 50 := ⟨h1, h2, h3⟩
    rw [pickupOne, if_pos hq]

/-- Claim C9 witness: pickup inertness and the collected transition
evaluated on the concrete collectibles `clDone` and `clFresh`. -/
theorem C9_witness :
    pickupOne 0 520 800 clDone = clDone ∧
    qualifies 0 520 800 clDone = false ∧
    pickupOne 0 520 800 clFresh = { clFresh with collected := true } :=
  ⟨((C9_collectible_pickup 0 520 800 []).2.1 clDone rfl).1,
    ((C9_collectible_pickup 0 520 800 []).2.1 clDone rfl).2,
    (C9_collectible_pickup 0 520 800 []).2.2 clFresh rfl
      (by norm_num [clFresh]) (by norm_num [TILE_Y])⟩

/-- Claim C10 (confirmed): the empty active-tile set is absorbing - once the
retirement filter leaves no tiles, a step produces no tile, advances no id
counter and creates no collectible (every surviving collectible descends
from an existing one), and every subsequent step of the frame loop keeps the
tile set empty. -/
theorem C10_empty_absorbing :
    (∀ (W H : ℚ) (c : Choice) (g : GameState), g.tiles = [] →
      (updatePhysics W H c g).tiles = [] ∧
      (updatePhysics W H c g).tileIdCounter = g.tileIdCounter ∧
      (updatePhysics W H c g).collectibleIdCounter = g.collectibleIdCounter ∧
      ∀ cl ∈ (updatePhysics W H c g).collectibles, ∃ cl0 ∈ g.collectibles,
        cl.id = cl0.id ∧ cl.x = cl0.x ∧ cl.tileId = cl0.tileId) ∧
    (∀ (W H : ℚ) (cs : List Choice) (g : GameState), g.tiles = [] →
      (frameSteps W H cs g).tiles = []) :=
  ⟨updatePhysics_empty_tiles, frameSteps_empty_tiles⟩

/-- Claim C10 witness: a concrete step on the tile-less run `gEmpty`
produces no tile, no fresh id and no new collectible. -/
theorem C10_witness :
    (updatePhysics 400 800 chA gEmpty).tiles = [] ∧
    (updatePhysics 400 800 chA gEmpty).tileIdCounter = gEmpty.tileIdCounter ∧
    (updatePhysics 400 800 chA gEmpty).collectibleIdCounter
      = gEmpty.collectibleIdCounter ∧
    ∀ cl ∈ (updatePhysics 400 800 chA gEmpty).collectibles,
      ∃ cl0 ∈ gEmpty.collectibles,
        cl.id = cl0.id ∧ cl.x = cl0.x ∧ cl.tileId = cl0.tileId :=
  C10_empty_absorbing.1 400 800 chA gEmpty rfl

end Snowball
